/-
  Verification development for the vosita-slots-app repository.

  Shallow embedding of the slot generation, validation, filtering and
  storage modules:
    * src/utils/slotGenerator.ts   (generateSlots, generateDailySlots,
      validateSlotConfig, calculateSlotAvailability, convertSlotsToTimezone,
      getSlotGenerationStats)
    * src/utils/slotFiltering.ts   (getFilteredSlots and its stages)
    * src/utils/storage.ts         (StorageManager.getItem, loadSlotConfig,
      saveGeneratedSlots, loadGeneratedSlots)
    * the Yup form validation schema (slotConfigValidationSchema,
      getFormErrors)
    * the empty-result check of handleGenerateSlots (src/types/slotsView.ts)

  Modelling conventions:
    * Instants are integers counting minutes since an arbitrary epoch; all
      durations in the program are whole minutes, so minute resolution is
      exact for every quantity the program compares (moment's millisecond
      instants are minute multiples here).
    * A moment timezone is modelled by its UTC offset in minutes; the
      timezone database is a list of (name, offset) pairs.  Conversion of a
      moment to a timezone changes only the rendering offset, never the
      underlying instant, exactly as in moment-timezone.
    * An invalid moment (failed parse) is `none`; every comparison against
      an invalid moment is false, as in moment.
    * JS numbers occurring in configurations are modelled as integers (the
      validation schema enforces integrality).
-/
import Mathlib

/-- Numeric value of a decimal digit character (JS `Number` on one digit). -/
def digitVal (c : Char) : ℕ := c.toNat - 48

/-- The regex `^\d{2}:\d{2}$` used by `validateSlotConfig`. -/
def timeFormatOk (s : String) : Bool :=
  match s.toList with
  | [a, b, sep, c, d] => a.isDigit && b.isDigit && (sep = ':') && c.isDigit && d.isDigit
  | _ => false

/-- The regex `^\d{4}-\d{2}-\d{2}$` used by `validateSlotConfig`. -/
def dateFormatOk (s : String) : Bool :=
  match s.toList with
  | [a, b, c, d, s1, e, f, s2, g, h] =>
      a.isDigit && b.isDigit && c.isDigit && d.isDigit && (s1 = '-') &&
      e.isDigit && f.isDigit && (s2 = '-') && g.isDigit && h.isDigit
  | _ => false

/-- Hour and minute fields of an `HH:mm` string (garbage on other shapes;
only consulted after a format check, mirroring `split(':').map(Number)`). -/
def timeFields (s : String) : ℕ × ℕ :=
  match s.toList with
  | [a, b, _, c, d] => (10 * digitVal a + digitVal b, 10 * digitVal c + digitVal d)
  | _ => (0, 0)

/-- `startHour * 60 + startMinute`, the minutes-of-day arithmetic both
validators and the generator perform on an `HH:mm` string. -/
def hmToMinutes (s : String) : ℕ :=
  (timeFields s).1 * 60 + (timeFields s).2

/-- Year, month, day fields of a `YYYY-MM-DD` string (garbage on other
shapes; only consulted after a format check). -/
def dateFields (s : String) : ℕ × ℕ × ℕ :=
  match s.toList with
  | [a, b, c, d, _, e, f, _, g, h] =>
      (1000 * digitVal a + 100 * digitVal b + 10 * digitVal c + digitVal d,
       10 * digitVal e + digitVal f,
       10 * digitVal g + digitVal h)
  | _ => (0, 0, 0)

/-- Gregorian leap year rule. -/
def isLeapYear (y : ℕ) : Bool :=
  y % 4 = 0 && (y % 100 ≠ 0 || y % 400 = 0)

/-- Days in a month of the proleptic Gregorian calendar. -/
def daysInMonth (y m : ℕ) : ℕ :=
  match m with
  | 1 => 31 | 2 => if isLeapYear y then 29 else 28 | 3 => 31
  | 4 => 30 | 5 => 31 | 6 => 30 | 7 => 31 | 8 => 31
  | 9 => 30 | 10 => 31 | 11 => 30 | 12 => 31
  | _ => 0

/-- Days elapsed before January 1 of year `y` (proleptic Gregorian, year ≥ 1). -/
def daysBeforeYear (y : ℕ) : ℕ :=
  365 * (y - 1) + (y - 1) / 4 - (y - 1) / 100 + (y - 1) / 400

/-- Days elapsed in year `y` before the first of month `m`. -/
def daysBeforeMonth (y m : ℕ) : ℕ :=
  (List.range (m - 1)).foldl (fun acc i => acc + daysInMonth y (i + 1)) 0

/-- Day number of a calendar date (a linear day count, so that adding one
day — moment's `add(1, 'day')` — is `+ 1` and day comparisons are `≤`). -/
def civilToDay (y m d : ℕ) : ℕ :=
  daysBeforeYear y + daysBeforeMonth y m + (d - 1)

/-- `moment(value, 'YYYY-MM-DD')` / moment ISO date parsing, reduced to its
`startOf('day')` day number.  `none` models an invalid moment: the shape
must be `YYYY-MM-DD` and the fields must form a real calendar date (moment
rejects overflowed dates such as `2026-02-30` even in forgiving mode). -/
def parseDate (s : String) : Option ℕ :=
  if dateFormatOk s then
    let (y, m, d) := dateFields s
    if 1 ≤ m && m ≤ 12 && 1 ≤ d && d ≤ daysInMonth y m then
      some (civilToDay y m d)
    else none
  else none

/-- `moment(value, 'HH:mm')` parsing reduced to minutes of day; `none`
models an invalid moment (hour above 23 or minute above 59 overflow the
format and yield an invalid parse). -/
def parseTime (s : String) : Option ℕ :=
  if timeFormatOk s && (timeFields s).1 ≤ 23 && (timeFields s).2 ≤ 59 then
    some (hmToMinutes s)
  else none

/-- `Slot` record (src/types/slot.ts).  `startTime`/`endTime` are the
absolute instants of the JS `Date` objects, in minutes. -/
structure Slot where
  id : String
  startTime : Int
  endTime : Int
  isAvailable : Bool
deriving Repr, DecidableEq

/-- `SlotConfig` record (src/types/slot.ts). -/
structure SlotConfig where
  startDate : String
  endDate : String
  startTime : String
  endTime : String
  timeZone : String
  slotDuration : Int
  breakDuration : Int
  bufferDuration : Int
deriving Repr, DecidableEq

/-! ### src/utils/slotGenerator.ts -/

/-- One fail-fast check of `validateSlotConfig`: throw `msg` when `cond`
holds, otherwise continue with the rest of the validation. -/
def vcheck (cond : Bool) (msg : String) (rest : Except String Unit) : Except String Unit :=
  if cond then .error msg else rest

/-- `validateSlotConfig` (src/utils/slotGenerator.ts:292-354): the narrow
fail-fast validation run just before generation.  `tzdb` is the list of
zone names of the moment-timezone database (`moment.tz.zone(name)` is
non-null exactly when `name` is in it). -/
def validateSlotConfig (tzdb : List String) (config : SlotConfig) : Except String Unit :=
  vcheck (config.startDate.isEmpty || config.endDate.isEmpty)
    "Start date and end date are required" <|
  vcheck (config.startTime.isEmpty || config.endTime.isEmpty)
    "Start time and end time are required" <|
  vcheck config.timeZone.isEmpty
    "Timezone is required" <|
  vcheck (!(dateFormatOk config.startDate && dateFormatOk config.endDate))
    "Dates must be in YYYY-MM-DD format" <|
  vcheck (!(timeFormatOk config.startTime && timeFormatOk config.endTime))
    "Times must be in HH:mm format" <|
  vcheck (config.slotDuration ≤ 0)
    "Slot duration must be greater than 0" <|
  vcheck (config.breakDuration < 0)
    "Break duration cannot be negative" <|
  vcheck (config.bufferDuration < 0)
    "Buffer duration cannot be negative" <|
  vcheck (!(tzdb.contains config.timeZone))
    "Invalid timezone" <|
  vcheck ((hmToMinutes config.endTime : Int) ≤ (hmToMinutes config.startTime : Int))
    "End time must be after start time" <|
  vcheck ((hmToMinutes config.endTime : Int) - (hmToMinutes config.startTime : Int)
            < config.slotDuration)
    "Time range must allow for at least one slot" <|
  .ok ()

/-- The slot-emission loop of `generateDailySlots` (lines 118-136), with an
explicit fuel argument for structural recursion.  Emits the cursor while
`cursor + slotDuration ≤ workingEnd`, advancing by
`slotDuration + breakDuration`.  The `0 < s + b` conjunct makes the model
total where the source loop would not terminate (slotDuration =
breakDuration = 0, unreachable after validation). -/
def slotStartsFuel (s b endM : ℕ) : ℕ → ℕ → List ℕ
  | 0, _ => []
  | fuel + 1, cursor =>
      if 0 < s + b ∧ cursor + s ≤ endM then
        cursor :: slotStartsFuel s b endM fuel (cursor + (s + b))
      else []

/-- The slot-emission loop of `generateDailySlots`: starts emitted from
`cursor` within a working window ending at `endM`. -/
def slotStarts (s b endM cursor : ℕ) : List ℕ :=
  slotStartsFuel s b endM (endM + 1 - cursor) cursor

/-- `currentId.toString().padStart(4, '0')`. -/
def pad4 (n : ℕ) : String :=
  let s := toString n
  if s.length < 4 then String.mk (List.replicate (4 - s.length) '0') ++ s else s

/-- Slot identifier `slot_XXXX` (line 125). -/
def slotId (n : ℕ) : String := "slot_" ++ pad4 n

/-- Builds the slot records of one day from the emitted start instants,
incrementing the id counter per slot (lines 124-132). -/
def slotsFromStarts (dur : ℕ) : ℕ → List ℕ → List Slot
  | _, [] => []
  | currentId, c :: cs =>
      { id := slotId currentId, startTime := (c : Int), endTime := ((c + dur : ℕ) : Int),
        isAvailable := true } :: slotsFromStarts dur (currentId + 1) cs

/-- `generateDailySlots` (src/utils/slotGenerator.ts:86-140).  `day` is the
day number of the date being generated; the working window is the day's
date combined with the configured `HH:mm` times (minute setters overflow
into later hours/days exactly as `hour*60 + minute` does).  A day whose
working end is not after its working start contributes no slots and does
not fail. -/
def generateDailySlots (day : ℕ) (config : SlotConfig) (startingId : ℕ) : List Slot :=
  let workingStart := day * 1440 + hmToMinutes config.startTime
  let workingEnd := day * 1440 + hmToMinutes config.endTime
  if workingEnd ≤ workingStart then []
  else
    slotsFromStarts config.slotDuration.toNat startingId
      (slotStarts config.slotDuration.toNat config.breakDuration.toNat workingEnd workingStart)

/-- The per-day loop of `generateSlots` (lines 56-64): concatenates the
days' slots, threading the id counter by each day's slot count. -/
def generateSlotsLoop (config : SlotConfig) : List ℕ → ℕ → List Slot
  | [], _ => []
  | d :: ds, counter =>
      let dailySlots := generateDailySlots d config counter
      dailySlots ++ generateSlotsLoop config ds (counter + dailySlots.length)

/-- `generateSlots` (src/utils/slotGenerator.ts:34-73).  Validates, parses
the date range, errors on an inverted range, and otherwise concatenates the
daily slots of every day from `startDate` to `endDate` inclusive.  When a
date fails to parse, `endDate.isBefore(startDate)` and
`isSameOrBefore(endDate)` are both false (invalid-moment comparisons), so
the function returns normally with no slots.  Every thrown message is
re-wrapped by the outer catch (line 71). -/
def generateSlots (tzdb : List String) (config : SlotConfig) : Except String (List Slot) :=
  match validateSlotConfig tzdb config with
  | .error msg => .error ("Slot generation failed: " ++ msg)
  | .ok () =>
    match parseDate config.startDate, parseDate config.endDate with
    | some startDay, some endDay =>
        if endDay < startDay then
          .error "Slot generation failed: End date must be same as or after start date"
        else
          .ok (generateSlotsLoop config
                ((List.range (endDay + 1 - startDay)).map (fun i => startDay + i)) 1)
    | _, _ => .ok []

/-- The `slotsPerDay` statistic of `getSlotGenerationStats`
(src/utils/slotGenerator.ts:386-388): `Math.floor(workingMinutes /
(slotDuration + breakDuration))` (integer floor division). -/
def getSlotGenerationStats_slotsPerDay (config : SlotConfig) : Int :=
  ((hmToMinutes config.endTime : Int) - (hmToMinutes config.startTime : Int))
    / (config.slotDuration + config.breakDuration)

/-- `calculateSlotAvailability` (src/utils/slotGenerator.ts:155-194).
`bodyFails` models whether the `try` body raises (the `catch` of lines
189-193 then returns every slot with `isAvailable := false`).  On the
normal path a slot is marked available iff the current instant is at or
after `slotStart - bufferDuration` — the timezone argument of the source
only re-renders the moments and never changes these instant comparisons,
so it does not appear in the model. -/
def calculateSlotAvailability (slots : List Slot) (bufferDuration : Int)
    (currentTime : Int) (bodyFails : Bool) : List Slot :=
  if bodyFails then
    slots.map (fun slot => { slot with isAvailable := false })
  else
    slots.map (fun slot =>
      { slot with isAvailable := decide (slot.startTime - bufferDuration ≤ currentTime) })

/-! ### Moment model and timezone conversion -/

/-- A moment value: an absolute instant plus the UTC offset used for
rendering.  `moment(date)` starts at the local rendering offset; the model
uses offset 0 as the initial rendering, which no instant comparison ever
observes. -/
structure Moment where
  instant : Int
  utcOffset : Int
deriving Repr, DecidableEq

/-- `moment(date)` on a JS `Date`. -/
def momentOfDate (d : Int) : Moment := ⟨d, 0⟩

/-- `m.tz(zoneOffset)`: moment-timezone conversion changes only the
rendering offset, never the instant. -/
def Moment.tzConvert (m : Moment) (off : Int) : Moment := ⟨m.instant, off⟩

/-- `m.toDate()`: the absolute instant back as a `Date`. -/
def Moment.toDate (m : Moment) : Int := m.instant

/-- The moment-timezone database as (zone name, UTC offset in minutes)
pairs; `offsetOf` resolves a zone name. -/
def offsetOf (tzdb : List (String × Int)) (tz : String) : Option Int :=
  (tzdb.find? (fun p => p.1 = tz)).map (fun p => p.2)

/-- `convertSlotsToTimezone` (src/utils/slotFiltering.ts:232-246, and the
textually identical export of src/utils/slotGenerator.ts:263-281): rebuilds
every slot with `moment(slot.startTime).tz(tz).toDate()`.  For a zone
missing from the database moment logs an error and leaves the moment
unchanged — and the enclosing catch would likewise return the original
slots — so both arms of the model return the input unchanged in that
case. -/
def convertSlotsToTimezone (tzdb : List (String × Int)) (slots : List Slot)
    (targetTimezone : String) : List Slot :=
  match offsetOf tzdb targetTimezone with
  | some off =>
      slots.map (fun slot =>
        { slot with
          startTime := ((momentOfDate slot.startTime).tzConvert off).toDate,
          endTime := ((momentOfDate slot.endTime).tzConvert off).toDate })
  | none => slots

/-! ### src/utils/slotFiltering.ts -/

/-- `SlotFilterOptions` (src/utils/slotFiltering.ts:26-53).  `currentTime`
and `timezone` carry their call-site defaults (`new Date()` /
`moment.tz.guess()`) as explicit values; optional strings are `Option`. -/
structure SlotFilterOptions where
  currentTime : Int
  timezone : String
  bufferDuration : Int := 45
  startDate : Option String := none
  endDate : Option String := none
  startTime : Option String := none
  endTime : Option String := none
  availableOnly : Bool := false
  limit : Option Int := none
deriving Repr, DecidableEq

/-- JS truthiness of an optional string option: absent and `""` are falsy. -/
def truthy : Option String → Bool
  | none => false
  | some s => !s.isEmpty

/-- `calculateTimezoneAwareAvailability` (src/utils/slotFiltering.ts:260-284).
`bodyFails` models whether the `try` body raises (the catch of lines
280-283 then returns every slot with `isAvailable := false`).  On the
normal path: `now.isSameOrAfter(slotStart - buffer) && slotStart.isAfter(now)`;
the timezone re-renderings in the source do not change these instant
comparisons. -/
def calculateTimezoneAwareAvailability (slots : List Slot) (currentTime : Int)
    (bufferDuration : Int) (bodyFails : Bool) : List Slot :=
  if bodyFails then
    slots.map (fun slot => { slot with isAvailable := false })
  else
    slots.map (fun slot =>
      { slot with
        isAvailable :=
          decide (slot.startTime - bufferDuration ≤ currentTime) &&
          decide (currentTime < slot.startTime) })

/-- `filterSlotsByDateRange` (src/utils/slotFiltering.ts:295-313): keeps
slots whose start lies between `startOf('day')` of `startDate` and
`endOf('day')` of `endDate` in the given timezone, bounds inclusive.
`endOf('day')` is the last minute of the day at this model's minute
resolution.  An unparseable bound yields an invalid moment and
`isBetween` is then false for every slot. -/
def filterSlotsByDateRange (tzdb : List (String × Int)) (slots : List Slot)
    (startDate endDate : String) (timezone : String) : List Slot :=
  let off := (offsetOf tzdb timezone).getD 0
  match parseDate startDate, parseDate endDate with
  | some sd, some ed =>
      let startInstant : Int := (sd : Int) * 1440 - off
      let endInstant : Int := (ed : Int) * 1440 + 1439 - off
      slots.filter (fun slot =>
        startInstant ≤ slot.startTime && slot.startTime ≤ endInstant)
  | _, _ => slots.filter (fun _ => false)

/-- `filterSlotsByTimeRange` (src/utils/slotFiltering.ts:324-349): keeps
slots whose local wall-clock minutes-of-day lie in `[startTime, endTime)`.
If either bound fails to split into two numbers the NaN comparisons are
false and no slot is kept. -/
def filterSlotsByTimeRange (tzdb : List (String × Int)) (slots : List Slot)
    (startTime endTime : String) (timezone : String) : List Slot :=
  let off := (offsetOf tzdb timezone).getD 0
  if timeFormatOk startTime && timeFormatOk endTime then
    let startMinutes : Int := hmToMinutes startTime
    let endMinutes : Int := hmToMinutes endTime
    slots.filter (fun slot =>
      let slotMinutes : Int := (slot.startTime + off) % 1440
      startMinutes ≤ slotMinutes && slotMinutes < endMinutes)
  else slots.filter (fun _ => false)

/-- The comparator of step 7 of `getFilteredSlots`
(`a.startTime.getTime() - b.startTime.getTime()`). -/
def slotLE (a b : Slot) : Prop := a.startTime ≤ b.startTime

instance : DecidableRel slotLE := fun a b => Int.decLe a.startTime b.startTime

instance : IsTotal Slot slotLE := ⟨fun a b => Int.le_total a.startTime b.startTime⟩

instance : IsTrans Slot slotLE := ⟨fun _ _ _ h₁ h₂ => le_trans h₁ h₂⟩

/-- Step 6 of `getFilteredSlots` (lines 119-122): truncate when a positive
limit is given. -/
def applyLimit : Option Int → List Slot → List Slot
  | some n, slots => if 0 < n then slots.take n.toNat else slots
  | none, slots => slots

/-- Steps 1-5 of `getFilteredSlots` (src/utils/slotFiltering.ts:91-117):
timezone conversion, availability annotation, the two optional range
filters (each run only when both of its bounds are truthy), and the
optional availability filter. -/
def gfsThroughStep5 (tzdb : List (String × Int)) (slots : List Slot)
    (options : SlotFilterOptions) : List Slot :=
  let step1 := convertSlotsToTimezone tzdb slots options.timezone
  let step2 := calculateTimezoneAwareAvailability step1 options.currentTime
                 options.bufferDuration false
  let step3 :=
    if truthy options.startDate && truthy options.endDate then
      filterSlotsByDateRange tzdb step2 (options.startDate.getD "")
        (options.endDate.getD "") options.timezone
    else step2
  let step4 :=
    if truthy options.startTime && truthy options.endTime then
      filterSlotsByTimeRange tzdb step3 (options.startTime.getD "")
        (options.endTime.getD "") options.timezone
    else step3
  if options.availableOnly then step4.filter (fun slot => slot.isAvailable) else step4

/-- `getFilteredSlots` (src/utils/slotFiltering.ts:66-136), normal path:
steps 1-5, then the limit truncation (step 6), then the sort by start
instant (step 7).  JS `Array.prototype.sort` is a stable sort and stable
sorts agree extensionally, so it is modelled by insertion sort. -/
def getFilteredSlots (tzdb : List (String × Int)) (slots : List Slot)
    (options : SlotFilterOptions) : List Slot :=
  List.insertionSort slotLE (applyLimit options.limit (gfsThroughStep5 tzdb slots options))

/-! ### The Yup validation schema (slotConfigValidationSchema / getFormErrors) -/

/-- `isValidDate` of the schema module: strict `moment(value, 'YYYY-MM-DD',
true)` validity. -/
def isValidDate (s : String) : Bool := (parseDate s).isSome

/-- `isValidTime` of the schema module: strict `moment(value, 'HH:mm',
true)` validity. -/
def isValidTime (s : String) : Bool := (parseTime s).isSome

/-- All tests of `slotConfigValidationSchema` with their Yup paths, each
paired with whether it passes.  `tzdb` is the zone-name list
(`generateTimezoneOptions()` maps exactly `moment.tz.names()` to option
values); `today` is the day number of `moment().startOf('day')` read by the
`not-past` test.  `getFormErrors` (validation with `abortEarly: false`)
returns an empty error record iff every one of these tests passes. -/
def schemaTestResults (tzdb : List String) (today : ℕ) (c : SlotConfig) :
    List (String × Bool) :=
  [ ("startDate.required", !c.startDate.isEmpty),
    ("startDate.is-valid-date", isValidDate c.startDate),
    ("startDate.not-past",
      match parseDate c.startDate with
      | some d => decide (today ≤ d)
      | none => false),
    ("endDate.required", !c.endDate.isEmpty),
    ("endDate.is-valid-date", isValidDate c.endDate),
    ("endDate.after-start",
      if c.endDate.isEmpty || c.startDate.isEmpty then false
      else
        match parseDate c.startDate, parseDate c.endDate with
        | some s, some e => decide (s ≤ e)
        | _, _ => false),
    ("startTime.required", !c.startTime.isEmpty),
    ("startTime.is-valid-time", isValidTime c.startTime),
    ("startTime.valid-range",
      match parseTime c.startTime with
      | some t => decide (t ≤ 1439)
      | none => false),
    ("endTime.required", !c.endTime.isEmpty),
    ("endTime.is-valid-time", isValidTime c.endTime),
    ("endTime.after-start-time",
      if c.endTime.isEmpty || c.startTime.isEmpty then false
      else
        match parseTime c.startTime, parseTime c.endTime with
        | some s, some e => decide (s < e)
        | _, _ => false),
    ("endTime.sufficient-duration",
      if c.endTime.isEmpty || c.startTime.isEmpty || c.slotDuration = 0 then false
      else
        match parseTime c.startTime, parseTime c.endTime with
        | some s, some e => decide ((e : Int) - (s : Int) ≥ c.slotDuration)
        | _, _ => false),
    ("timeZone.required", !c.timeZone.isEmpty),
    ("timeZone.is-valid-timezone", tzdb.contains c.timeZone),
    ("slotDuration.min", decide (5 ≤ c.slotDuration)),
    ("slotDuration.max", decide (c.slotDuration ≤ 480)),
    ("slotDuration.is-positive", decide (0 < c.slotDuration)),
    ("breakDuration.min", decide (0 ≤ c.breakDuration)),
    ("breakDuration.max", decide (c.breakDuration ≤ 120)),
    ("bufferDuration.min", decide (0 ≤ c.bufferDuration)),
    ("bufferDuration.max", decide (c.bufferDuration ≤ 1440)) ]

/-- `getFormErrors` returns `{}` — the schema accepts — iff no test fails. -/
def getFormErrorsEmpty (tzdb : List String) (today : ℕ) (c : SlotConfig) : Bool :=
  (schemaTestResults tzdb today c).all (fun p => p.2)

/-! ### src/utils/storage.ts -/

/-- `StorageManager.getItem` (src/utils/storage.ts:76-99).  `raw` is the
outcome of `AsyncStorage.getItem` (`.error` = the underlying read threw,
`.ok none` = key absent, `.ok (some s)` = the stored string); `parse` is
`JSON.parse` followed by the cast, `none` meaning a `SyntaxError`.  A parse
failure returns `null` for graceful degradation; every other failure is
rethrown. -/
def StorageManager.getItem {α : Type} (raw : Except Unit (Option String))
    (parse : String → Option α) : Except Unit (Option α) :=
  match raw with
  | .error _ => .error ()
  | .ok none => .ok none
  | .ok (some s) =>
      match parse s with
      | none => .ok none
      | some v => .ok (some v)

/-- `loadSlotConfig` (src/utils/storage.ts:203-222): rethrows storage
errors, returns `none` for an absent or invalid configuration. -/
def loadSlotConfig (raw : Except Unit (Option String))
    (parse : String → Option SlotConfig) : Except Unit (Option SlotConfig) :=
  match StorageManager.getItem raw parse with
  | .error e => .error e
  | .ok none => .ok none
  | .ok (some config) =>
      if config.startDate.isEmpty || config.endDate.isEmpty || config.timeZone.isEmpty then
        .ok none
      else .ok (some config)

/-- A slot record as serialized by `saveGeneratedSlots`: the `Date` fields
are written as ISO-8601 strings.  `toISOString` of a valid `Date` and
`new Date(isoString)` are mutually inverse, so the stored string is
represented by the instant it denotes. -/
structure StoredSlot where
  id : String
  startTime : Int
  endTime : Int
  isAvailable : Bool
deriving Repr, DecidableEq

/-- The per-slot serialization of `saveGeneratedSlots` (lines 260-264). -/
def serializeSlot (slot : Slot) : StoredSlot :=
  { id := slot.id, startTime := slot.startTime, endTime := slot.endTime,
    isAvailable := slot.isAvailable }

/-- `saveGeneratedSlots` (src/utils/storage.ts:240-272), returning the
payload passed to `storage.setItem`.  A slot with a falsy id fails
validation and the save throws.  (`startTime`/`endTime` here are `Date`
objects by typing, so their truthiness and `instanceof` checks pass; the
claim under verification supplies valid date boundaries, under which
`toISOString` cannot throw.) -/
def saveGeneratedSlots (slots : List Slot) : Except String (List StoredSlot) :=
  if slots.any (fun slot => slot.id.isEmpty) then
    .error "Invalid slot object: missing required fields"
  else
    .ok (slots.map serializeSlot)

/-- A raw record found in storage under the slots key, after `JSON.parse`
and `new Date(...)` reconstruction (lines 293-297): each date field is
`some instant` when the stored string parses to a valid instant and `none`
when `new Date` yields an invalid date (`isNaN(getTime())`). -/
structure RawStoredSlot where
  id : String
  startTime : Option Int
  endTime : Option Int
  isAvailable : Bool
deriving Repr, DecidableEq

/-- Re-reading a just-saved record: the ISO string of a valid instant
parses back to that instant. -/
def storedToRaw (st : StoredSlot) : RawStoredSlot :=
  { id := st.id, startTime := some st.startTime, endTime := some st.endTime,
    isAvailable := st.isAvailable }

/-- The validity filter of `loadGeneratedSlots` (lines 300-312): keep a
record iff its id is truthy and both reconstructed dates are valid. -/
def reconstructSlot (r : RawStoredSlot) : Option Slot :=
  match r.startTime, r.endTime with
  | some st, some et =>
      if r.id.isEmpty then none
      else some { id := r.id, startTime := st, endTime := et, isAvailable := r.isAvailable }
  | _, _ => none

/-- `loadGeneratedSlots` (src/utils/storage.ts:283-321): absent or
non-array data yields `[]`; invalid records are skipped; the enclosing
catch (lines 316-320) turns **every** failure, including a storage read
error rethrown by `getItem`, into an empty array. -/
def loadGeneratedSlots (raw : Except Unit (Option String))
    (parse : String → Option (List RawStoredSlot)) : Except Unit (List Slot) :=
  match StorageManager.getItem raw parse with
  | .error _ => .ok []
  | .ok none => .ok []
  | .ok (some rawSlots) => .ok (rawSlots.filterMap reconstructSlot)

/-- The empty-result check of `handleGenerateSlots`
(src/types/slotsView.ts:86-89): after `generateSlots` returns, the caller —
not the generator — throws `No slots were generated` on an empty
collection. -/
def handleGenerateSlotsOutcome (tzdb : List String) (config : SlotConfig) :
    Except String (List Slot) :=
  match generateSlots tzdb config with
  | .error e => .error e
  | .ok slots =>
      if slots.isEmpty then
        .error "No slots were generated. Please check your configuration."
      else .ok slots

/-! ### Helper lemmas -/

theorem vcheck_ok_iff {cond : Bool} {msg : String} {rest : Except String Unit} :
    vcheck cond msg rest = .ok () ↔ cond = false ∧ rest = .ok () := by
  unfold vcheck
  cases cond <;> simp

theorem slotStartsFuel_length (s b : ℕ) (hs : 0 < s + b) :
    ∀ (fuel endM cursor : ℕ), endM + 1 - cursor ≤ fuel →
      (slotStartsFuel s b endM fuel cursor).length = (endM + b - cursor) / (s + b) := by
  intro fuel
  induction fuel with
  | zero =>
      intro endM cursor hf
      have h1 : endM + b - cursor < s + b := by omega
      simp [slotStartsFuel, Nat.div_eq_of_lt h1]
  | succ n ih =>
      intro endM cursor hf
      rw [slotStartsFuel]
      by_cases hc : 0 < s + b ∧ cursor + s ≤ endM
      · rw [if_pos hc, List.length_cons, ih endM (cursor + (s + b)) (by omega)]
        have h1 : s + b ≤ endM + b - cursor := by omega
        rw [Nat.div_eq_sub_div hs h1]
        congr 2
        omega
      · rw [if_neg hc]
        have h1 : endM + b - cursor < s + b := by omega
        simp [Nat.div_eq_of_lt h1]

theorem slotStarts_length (s b endM cursor : ℕ) (hs : 0 < s + b) :
    (slotStarts s b endM cursor).length = (endM + b - cursor) / (s + b) :=
  slotStartsFuel_length s b hs (endM + 1 - cursor) endM cursor le_rfl

theorem slotsFromStarts_length (dur : ℕ) :
    ∀ (currentId : ℕ) (starts : List ℕ),
      (slotsFromStarts dur currentId starts).length = starts.length := by
  intro currentId starts
  induction starts generalizing currentId with
  | nil => rfl
  | cons c cs ih => simp [slotsFromStarts, ih]

/-- Unpacking `validateSlotConfig ... = .ok ()` into the facts the
generation lemmas need. -/
theorem validateSlotConfig_ok {tzdb : List String} {config : SlotConfig}
    (h : validateSlotConfig tzdb config = .ok ()) :
    0 < config.slotDuration ∧ 0 ≤ config.breakDuration ∧
    hmToMinutes config.startTime < hmToMinutes config.endTime ∧
    config.slotDuration ≤ (hmToMinutes config.endTime : Int) - (hmToMinutes config.startTime : Int) := by
  unfold validateSlotConfig at h
  simp only [vcheck_ok_iff] at h
  obtain ⟨-, -, -, -, -, h6, h7, -, -, h10, h11, -⟩ := h
  simp only [decide_eq_false_iff_not, not_le, not_lt] at h6 h7 h10 h11
  exact ⟨h6, h7, by omega, h11⟩

theorem truthy_none : truthy none = false := rfl

theorem zip_map_self {α β : Type} (f : α → β) (l : List α) :
    l.zip (l.map f) = l.map (fun a => (a, f a)) := by
  induction l with
  | nil => rfl
  | cons a t ih => simp [ih]

/-! ### Claims -/

/-- Claim C1, counterexample: the claim states that `calculateSlotAvailability`
(the generator-module annotator) marks a slot available iff
`referenceInstant ≥ slotStart − bufferDuration` AND `referenceInstant <
slotStart`, so that a slot whose start has passed is never available.  At
reference instant 100, buffer 0, a slot starting at instant 0 — long past —
is nevertheless marked available by `calculateSlotAvailability`. -/
theorem C1_counterexample :
    calculateSlotAvailability
        [{ id := "slot_0001", startTime := 0, endTime := 30, isAvailable := false }] 0 100 false
      = [{ id := "slot_0001", startTime := 0, endTime := 30, isAvailable := true }]
    ∧ ((0 : Int) - 0 ≤ 100 ∧ ¬((100 : Int) < 0)) := by
  exact ⟨rfl, by decide⟩

/-- Claim C1, amended: the availability step of `getFilteredSlots`
(`calculateTimezoneAwareAvailability`) marks a slot available iff
`referenceInstant ≥ slotStart − bufferDuration` AND `referenceInstant <
slotStart`; the generator module's `calculateSlotAvailability` implements
only the first clause, so it marks a slot whose start has already passed as
available.  Stated pointwise over input/output slot pairs. -/
theorem C1_amended (slots : List Slot) (bufferDuration currentTime : Int) (p : Slot × Slot) :
    (p ∈ slots.zip (calculateTimezoneAwareAvailability slots currentTime bufferDuration false) →
       (p.2.isAvailable = true ↔
         p.1.startTime - bufferDuration ≤ currentTime ∧ currentTime < p.1.startTime)) ∧
    (p ∈ slots.zip (calculateSlotAvailability slots bufferDuration currentTime false) →
       (p.2.isAvailable = true ↔ p.1.startTime - bufferDuration ≤ currentTime)) := by
  constructor
  · intro hp
    simp only [calculateTimezoneAwareAvailability, if_neg (by simp : ¬(false = true)),
      zip_map_self] at hp
    obtain ⟨a, _, rfl⟩ := List.mem_map.mp hp
    simp
  · intro hp
    simp only [calculateSlotAvailability, if_neg (by simp : ¬(false = true)),
      zip_map_self] at hp
    obtain ⟨a, _, rfl⟩ := List.mem_map.mp hp
    simp

/-- Claim C1, witness for the amended theorem at a concrete slot pair. -/
theorem C1_amended_witness :
    (({ id := "w", startTime := 10, endTime := 20, isAvailable := false } : Slot),
     ({ id := "w", startTime := 10, endTime := 20, isAvailable := true } : Slot)).2.isAvailable = true
      ↔ ((10 : Int) - 5 ≤ 7 ∧ (7 : Int) < 10) :=
  (C1_amended [{ id := "w", startTime := 10, endTime := 20, isAvailable := false }] 5 7
      ({ id := "w", startTime := 10, endTime := 20, isAvailable := false },
       { id := "w", startTime := 10, endTime := 20, isAvailable := true })).1 (by decide)

/-- Claim C9: when the body of either availability annotator raises, the
catch handler returns the input slots — ids and boundary instants
unchanged — each with `isAvailable` set to `false`; no slot is reported
available on the error path. -/
theorem C9_error_path_all_unavailable (slots : List Slot) (bufferDuration currentTime : Int) :
    (∀ s, s ∈ calculateSlotAvailability slots bufferDuration currentTime true →
        s.isAvailable = false) ∧
    (∀ s, s ∈ calculateTimezoneAwareAvailability slots currentTime bufferDuration true →
        s.isAvailable = false) ∧
    (calculateSlotAvailability slots bufferDuration currentTime true).map
        (fun s => (s.id, s.startTime, s.endTime))
      = slots.map (fun s => (s.id, s.startTime, s.endTime)) ∧
    (calculateTimezoneAwareAvailability slots currentTime bufferDuration true).map
        (fun s => (s.id, s.startTime, s.endTime))
      = slots.map (fun s => (s.id, s.startTime, s.endTime)) := by
  refine ⟨?_, ?_, ?_, ?_⟩ <;>
    simp [calculateSlotAvailability, calculateTimezoneAwareAvailability]

/-- Claim C9, witness at a concrete failing run. -/
theorem C9_error_path_witness :
    ({ id := "w", startTime := 10, endTime := 20, isAvailable := false } : Slot).isAvailable
      = false :=
  (C9_error_path_all_unavailable
      [{ id := "w", startTime := 10, endTime := 20, isAvailable := true }] 45 0).1
    { id := "w", startTime := 10, endTime := 20, isAvailable := false } (by decide)

/-- Claim C8: re-projecting a slot list into a valid timezone with
`convertSlotsToTimezone` returns slots equal to the input — same ids,
availability flags and absolute start/end instants — and therefore
computing availability before or after the re-projection gives identical
results. -/
theorem C8_timezone_projection_identity (tzdb : List (String × Int)) (slots : List Slot)
    (tz : String) (h : (offsetOf tzdb tz).isSome = true) :
    convertSlotsToTimezone tzdb slots tz = slots ∧
    ∀ currentTime bufferDuration bodyFails,
      calculateTimezoneAwareAvailability (convertSlotsToTimezone tzdb slots tz)
          currentTime bufferDuration bodyFails
        = calculateTimezoneAwareAvailability slots currentTime bufferDuration bodyFails := by
  obtain ⟨off, hoff⟩ := Option.isSome_iff_exists.mp h
  have hconv : convertSlotsToTimezone tzdb slots tz = slots := by
    unfold convertSlotsToTimezone
    rw [hoff]
    have : ∀ s : Slot,
        ({ s with startTime := ((momentOfDate s.startTime).tzConvert off).toDate,
                  endTime := ((momentOfDate s.endTime).tzConvert off).toDate } : Slot) = s := by
      intro s; cases s; rfl
    simp [this]
  exact ⟨hconv, fun _ _ _ => by rw [hconv]⟩

/-- Claim C8, witness at a concrete slot list and timezone. -/
theorem C8_timezone_projection_identity_witness :
    convertSlotsToTimezone [("UTC", 0)]
        [{ id := "w", startTime := 10, endTime := 20, isAvailable := false }] "UTC"
      = [{ id := "w", startTime := 10, endTime := 20, isAvailable := false }] :=
  (C8_timezone_projection_identity [("UTC", 0)]
      [{ id := "w", startTime := 10, endTime := 20, isAvailable := false }] "UTC" (by decide)).1

/-- Claim C10: in `getFilteredSlots` the date-range stage runs only when
both date bounds are truthy and the time-of-day stage only when both time
bounds are truthy; with exactly one bound of a pair supplied the stage is
skipped, so the result equals the run with that pair absent altogether. -/
theorem C10_filter_stage_gating (tzdb : List (String × Int)) (slots : List Slot)
    (options : SlotFilterOptions) :
    (truthy options.startDate ≠ truthy options.endDate →
       getFilteredSlots tzdb slots options
         = getFilteredSlots tzdb slots { options with startDate := none, endDate := none }) ∧
    (truthy options.startTime ≠ truthy options.endTime →
       getFilteredSlots tzdb slots options
         = getFilteredSlots tzdb slots { options with startTime := none, endTime := none }) := by
  constructor
  · intro h
    have hg : (truthy options.startDate && truthy options.endDate) = false := by
      cases h1 : truthy options.startDate <;> cases h2 : truthy options.endDate <;>
        simp_all
    simp [getFilteredSlots, gfsThroughStep5, hg, truthy_none]
  · intro h
    have hg : (truthy options.startTime && truthy options.endTime) = false := by
      cases h1 : truthy options.startTime <;> cases h2 : truthy options.endTime <;>
        simp_all
    simp [getFilteredSlots, gfsThroughStep5, hg, truthy_none]

/-- Claim C10, witness: an options record carrying only a start date (no
end date) filters exactly like one with no date bounds at all. -/
theorem C10_filter_stage_gating_witness :
    getFilteredSlots [("UTC", 0)]
        [{ id := "w", startTime := 10, endTime := 20, isAvailable := false }]
        { currentTime := 0, timezone := "UTC", startDate := some "2026-01-01" }
      = getFilteredSlots [("UTC", 0)]
        [{ id := "w", startTime := 10, endTime := 20, isAvailable := false }]
        { currentTime := 0, timezone := "UTC", startDate := none, endDate := none } :=
  (C10_filter_stage_gating [("UTC", 0)]
      [{ id := "w", startTime := 10, endTime := 20, isAvailable := false }]
      { currentTime := 0, timezone := "UTC", startDate := some "2026-01-01" }).1 (by decide)

theorem slotStarts_eq_nil (s b endM cursor : ℕ) (h : endM < cursor + s) :
    slotStarts s b endM cursor = [] := by
  unfold slotStarts
  cases hf : endM + 1 - cursor with
  | zero => rfl
  | succ n =>
      rw [slotStartsFuel, if_neg (by omega : ¬(0 < s + b ∧ cursor + s ≤ endM))]

/-- A 75-minute working window with 30-minute slots and 15-minute breaks:
the fixture refuting the `floor(workingMinutes / (slotDuration +
breakDuration))` count formula. -/
def cfgC2 : SlotConfig :=
  { startDate := "2026-01-01", endDate := "2026-01-01", startTime := "09:00",
    endTime := "10:15", timeZone := "America/New_York", slotDuration := 30,
    breakDuration := 15, bufferDuration := 45 }

/-- Claim C2, counterexample: the config passes generation-time validation,
its working window spans 75 minutes, `floor(75 / (30 + 15)) = 1`, yet
`generateDailySlots` emits 2 slots (starts 09:00 and 09:45, both ending by
10:15). -/
theorem C2_counterexample :
    validateSlotConfig ["America/New_York"] cfgC2 = .ok () ∧
    (generateDailySlots 0 cfgC2 1).length = 2 ∧
    (hmToMinutes cfgC2.endTime - hmToMinutes cfgC2.startTime)
        / (cfgC2.slotDuration.toNat + cfgC2.breakDuration.toNat) = 1 :=
  ⟨rfl, rfl, rfl⟩

/-- Claim C2, amended: for every configuration accepted by generation-time
validation, the slots generated for one day number
`floor((workingMinutes + breakDuration) / (slotDuration + breakDuration))`
— equivalently `floor((workingMinutes − slotDuration) / (slotDuration +
breakDuration)) + 1`, and 0 for a window shorter than one slot.  The
spec's `floor(workingMinutes / (slotDuration + breakDuration))` is what
`getSlotGenerationStats` estimates, and it understates the generated count
whenever `workingMinutes mod (slotDuration + breakDuration) ≥ slotDuration`
with a positive break. -/
theorem C2_amended (tzdb : List String) (config : SlotConfig) (day startingId : ℕ)
    (h : validateSlotConfig tzdb config = .ok ()) :
    (generateDailySlots day config startingId).length
      = (hmToMinutes config.endTime - hmToMinutes config.startTime
           + config.breakDuration.toNat)
          / (config.slotDuration.toNat + config.breakDuration.toNat) := by
  obtain ⟨hs, hb, hlt, hfit⟩ := validateSlotConfig_ok h
  simp only [generateDailySlots]
  rw [if_neg (by omega), slotsFromStarts_length, slotStarts_length _ _ _ _ (by omega)]
  congr 1
  omega

/-- Claim C2, witness for the amended count at the 75-minute fixture. -/
theorem C2_amended_witness :
    (generateDailySlots 0 cfgC2 1).length
      = (hmToMinutes cfgC2.endTime - hmToMinutes cfgC2.startTime
           + cfgC2.breakDuration.toNat)
          / (cfgC2.slotDuration.toNat + cfgC2.breakDuration.toNat) :=
  C2_amended ["America/New_York"] cfgC2 0 1 rfl

/-- A configuration whose dates match the `YYYY-MM-DD` regex but denote no
real calendar date: `validateSlotConfig` accepts it, moment parses it to an
invalid moment. -/
def cfgC5 : SlotConfig :=
  { startDate := "2026-02-30", endDate := "2026-02-30", startTime := "09:00",
    endTime := "17:00", timeZone := "America/New_York", slotDuration := 30,
    breakDuration := 15, bufferDuration := 45 }

/-- Scenario C's too-short day: a 20-minute window for 30-minute slots. -/
def cfgShortDay : SlotConfig :=
  { startDate := "2026-01-01", endDate := "2026-01-01", startTime := "09:00",
    endTime := "09:20", timeZone := "America/New_York", slotDuration := 30,
    breakDuration := 0, bufferDuration := 45 }

/-- Claim C5, counterexample: a configuration that passes generation-time
validation on which every day contributes zero slots — the date range
parses to no day at all — yet `generateSlots` returns normally with the
empty list instead of failing with a generation error. -/
theorem C5_counterexample :
    validateSlotConfig ["America/New_York"] cfgC5 = .ok () ∧
    generateSlots ["America/New_York"] cfgC5 = .ok [] :=
  ⟨rfl, rfl⟩

/-- Claim C5, amended: a day whose working window is too short for one slot
contributes zero slots without raising; but `generateSlots` itself never
fails on an overall empty result — it returns the empty list normally, and
the `No slots were generated` generation error is raised afterwards by its
caller `handleGenerateSlots` (src/types/slotsView.ts:86-89) whenever the
returned collection is empty. -/
theorem C5_amended (tzdb : List String) (config : SlotConfig) (day startingId : ℕ) :
    ((hmToMinutes config.endTime : Int) - (hmToMinutes config.startTime : Int)
        < config.slotDuration →
      generateDailySlots day config startingId = []) ∧
    (validateSlotConfig tzdb config = .ok () → parseDate config.startDate = none →
      generateSlots tzdb config = .ok []) ∧
    (generateSlots tzdb config = .ok [] →
      handleGenerateSlotsOutcome tzdb config
        = .error "No slots were generated. Please check your configuration.") := by
  refine ⟨?_, ?_, ?_⟩
  · intro hshort
    simp only [generateDailySlots]
    by_cases hend :
        day * 1440 + hmToMinutes config.endTime ≤ day * 1440 + hmToMinutes config.startTime
    · rw [if_pos hend]
    · rw [if_neg hend, slotStarts_eq_nil _ _ _ _ (by omega)]
      rfl
  · intro hok hbad
    unfold generateSlots
    rw [hok, hbad]
  · intro hempty
    unfold handleGenerateSlotsOutcome
    rw [hempty]
    rfl

/-- Claim C5, witness: Scenario C's short day yields no slots without
raising, and on the degenerate-date fixture `generateSlots` returns the
empty list normally while the caller turns it into the generation error. -/
theorem C5_amended_witness :
    generateDailySlots 0 cfgShortDay 1 = [] ∧
    generateSlots ["America/New_York"] cfgC5 = .ok [] ∧
    handleGenerateSlotsOutcome ["America/New_York"] cfgC5
      = .error "No slots were generated. Please check your configuration." :=
  ⟨(C5_amended ["America/New_York"] cfgShortDay 0 1).1 (by decide),
   (C5_amended ["America/New_York"] cfgC5 0 1).2.1 rfl rfl,
   (C5_amended ["America/New_York"] cfgC5 0 1).2.2
     ((C5_amended ["America/New_York"] cfgC5 0 1).2.1 rfl rfl)⟩

/-- Two available slots listed out of start order: the fixture showing the
limit is applied to the pre-sort order. -/
def slotsC4 : List Slot :=
  [{ id := "A", startTime := 200, endTime := 230, isAvailable := true },
   { id := "B", startTime := 100, endTime := 130, isAvailable := true }]

/-- Filter options requesting only available slots with limit 1 at
reference instant 0 with a large buffer, so both fixture slots survive. -/
def optionsC4 : SlotFilterOptions :=
  { currentTime := 0, timezone := "UTC", bufferDuration := 1000,
    availableOnly := true, limit := some 1 }

/-- Claim C4, counterexample: with `availableOnly = true` and `limit = 1`,
both fixture slots survive filtering and the earliest surviving slot is
`B` (start 100) — the first element of the sorted survivors, as the
unlimited run shows — yet `getFilteredSlots` returns `A` (start 200),
because the truncation runs before the sort. -/
theorem C4_counterexample :
    (getFilteredSlots [("UTC", 0)] slotsC4 optionsC4).map Slot.id = ["A"] ∧
    ((getFilteredSlots [("UTC", 0)] slotsC4 { optionsC4 with limit := none }).take 1).map
        Slot.id = ["B"] :=
  ⟨rfl, rfl⟩

/-- Claim C4, amended: with `availableOnly = true` and a positive limit
`n`, `getFilteredSlots` returns at most `n` slots, all flagged available,
sorted ascending by start instant — but they are the first `n` survivors
in pre-sort pipeline order, sorted afterwards: the truncation is applied
before the sort, not after it. -/
theorem C4_amended (tzdb : List (String × Int)) (slots : List Slot)
    (options : SlotFilterOptions) (n : Int) (hA : options.availableOnly = true)
    (hL : options.limit = some n) (hn : 0 < n) :
    getFilteredSlots tzdb slots options
      = List.insertionSort slotLE ((gfsThroughStep5 tzdb slots options).take n.toNat) ∧
    (getFilteredSlots tzdb slots options).length ≤ n.toNat ∧
    (∀ s, s ∈ getFilteredSlots tzdb slots options → s.isAvailable = true) ∧
    List.Sorted slotLE (getFilteredSlots tzdb slots options) := by
  have heq : getFilteredSlots tzdb slots options
      = List.insertionSort slotLE ((gfsThroughStep5 tzdb slots options).take n.toNat) := by
    unfold getFilteredSlots
    rw [hL]
    simp [applyLimit, hn]
  have hmem5 : ∀ s, s ∈ gfsThroughStep5 tzdb slots options → s.isAvailable = true := by
    intro s hs
    unfold gfsThroughStep5 at hs
    rw [hA] at hs
    simp only [if_pos rfl] at hs
    exact (List.mem_filter.mp hs).2
  refine ⟨heq, ?_, ?_, ?_⟩
  · rw [heq, List.length_insertionSort, List.length_take]
    exact min_le_left _ _
  · intro s hs
    rw [heq] at hs
    exact hmem5 s (List.mem_of_mem_take ((List.mem_insertionSort slotLE).mp hs))
  · rw [heq]
    exact List.sorted_insertionSort slotLE _

/-- Claim C4, witness: the amended theorem instantiated at the fixture. -/
theorem C4_amended_witness :
    (getFilteredSlots [("UTC", 0)] slotsC4 optionsC4).length ≤ (1 : Int).toNat :=
  (C4_amended [("UTC", 0)] slotsC4 optionsC4 1 rfl rfl (by decide)).2.1

theorem parseDate_isSome_format {s : String} (h : (parseDate s).isSome = true) :
    dateFormatOk s = true := by
  unfold parseDate at h
  by_cases hf : dateFormatOk s = true
  · exact hf
  · rw [if_neg hf] at h
    simp at h

theorem parseTime_eq_some {s : String} {t : ℕ} (h : parseTime s = some t) :
    timeFormatOk s = true ∧ t = hmToMinutes s := by
  unfold parseTime at h
  split at h
  · next hc =>
      simp only [Option.some.injEq] at h
      simp only [Bool.and_eq_true] at hc
      exact ⟨hc.1.1, h.symm⟩
  · simp at h

/-- A configuration with `slotDuration = 3`: the fail-fast validator only
requires a positive duration, but the schema requires at least 5 minutes. -/
def cfgC3 : SlotConfig :=
  { startDate := "2026-01-01", endDate := "2026-01-02", startTime := "09:00",
    endTime := "17:00", timeZone := "America/New_York", slotDuration := 3,
    breakDuration := 0, bufferDuration := 45 }

/-- Claim C3, counterexample: the two validation paths disagree — the
fail-fast `validateSlotConfig` accepts a 3-minute slot duration that the
schema (`getFormErrors`) rejects, so a config rejected by one is not
necessarily rejected by the other. -/
theorem C3_counterexample :
    validateSlotConfig ["America/New_York"] cfgC3 = .ok () ∧
    getFormErrorsEmpty ["America/New_York"] (civilToDay 2026 1 1) cfgC3 = false :=
  ⟨rfl, rfl⟩

/-- Claim C3, amended: agreement holds in one direction only — every
configuration the schema accepts (`getFormErrors` reports no errors) is
also accepted by the fail-fast `validateSlotConfig`, the schema being
strictly stricter (minimum/maximum duration bounds, no-past start date,
real calendar dates). -/
theorem C3_amended (tzdb : List String) (today : ℕ) (c : SlotConfig)
    (h : getFormErrorsEmpty tzdb today c = true) :
    validateSlotConfig tzdb c = .ok () := by
  simp only [getFormErrorsEmpty, schemaTestResults, List.all_cons, List.all_nil,
    Bool.and_eq_true, Bool.and_true] at h
  obtain ⟨h1, h2, h3, h4, h5, h6, h7, h8, h9, h10, h11, h12, h13, h14, h15, h16,
    h17, h18, h19, h20, h21, h22⟩ := h
  simp only [Bool.not_eq_true'] at h1 h4 h7 h10 h14
  simp only [isValidDate] at h2 h5
  simp only [isValidTime] at h8 h11
  obtain ⟨ts, hts⟩ := Option.isSome_iff_exists.mp h8
  obtain ⟨te, hte⟩ := Option.isSome_iff_exists.mp h11
  obtain ⟨hfs, hts_eq⟩ := parseTime_eq_some hts
  obtain ⟨hfe, hte_eq⟩ := parseTime_eq_some hte
  simp only [decide_eq_true_eq] at h16 h17 h18 h19 h21
  have h0 : ¬(c.slotDuration = 0) := by omega
  rw [hts, hte] at h12 h13
  have h12lt : ts < te := by
    simpa [h7, h10] using h12
  have h13fit : (te : Int) - (ts : Int) ≥ c.slotDuration := by
    simpa [h7, h10, decide_eq_false h0] using h13
  unfold validateSlotConfig
  simp only [vcheck_ok_iff]
  refine ⟨by simp [h1, h4], by simp [h7, h10], h14,
    by simp [parseDate_isSome_format h2, parseDate_isSome_format h5],
    by simp [hfs, hfe],
    by simp only [decide_eq_false_iff_not]; omega,
    by simp only [decide_eq_false_iff_not]; omega,
    by simp only [decide_eq_false_iff_not]; omega,
    by simpa using h15,
    by simp only [decide_eq_false_iff_not]; omega,
    by simp only [decide_eq_false_iff_not]; omega,
    trivial⟩

/-- Claim C3, witness: a schema-accepted configuration that
`validateSlotConfig` also accepts. -/
theorem C3_amended_witness :
    validateSlotConfig ["America/New_York"] { cfgC3 with slotDuration := 30 } = .ok () :=
  C3_amended ["America/New_York"] (civilToDay 2026 1 1)
    { cfgC3 with slotDuration := 30 } (by decide)

/-- Claim C6, counterexample: the claim says every non-parse storage
failure propagates to the caller; but `loadGeneratedSlots` absorbs an
underlying storage read failure and returns the empty collection, while
`loadSlotConfig` does propagate it. -/
theorem C6_counterexample :
    loadGeneratedSlots (.error ()) (fun _ => none) = .ok [] ∧
    loadSlotConfig (.error ()) (fun _ => none) = .error () :=
  ⟨rfl, rfl⟩

/-- Claim C6, amended: a malformed stored blob (JSON parse failure) yields
an absent/empty result without raising on every load path; an underlying
storage failure is rethrown by `StorageManager.getItem` and propagates from
`loadSlotConfig`, but `loadGeneratedSlots` absorbs it and returns the empty
collection instead of an error. -/
theorem C6_amended (s : String) (parseC : String → Option SlotConfig)
    (parseS : String → Option (List RawStoredSlot))
    (hC : parseC s = none) (hS : parseS s = none) :
    loadSlotConfig (.ok (some s)) parseC = .ok none ∧
    loadGeneratedSlots (.ok (some s)) parseS = .ok [] ∧
    StorageManager.getItem (.error ()) parseC = (.error () : Except Unit (Option SlotConfig)) ∧
    loadSlotConfig (.error ()) parseC = .error () ∧
    loadGeneratedSlots (.error ()) parseS = .ok [] := by
  refine ⟨?_, ?_, rfl, rfl, rfl⟩
  · unfold loadSlotConfig StorageManager.getItem
    simp [hC]
  · unfold loadGeneratedSlots StorageManager.getItem
    simp [hS]

/-- Claim C6, witness: a blob that fails to parse loads as an absent
configuration. -/
theorem C6_amended_witness :
    loadSlotConfig (.ok (some "corrupt")) (fun _ => none) = .ok none :=
  (C6_amended "corrupt" (fun _ => none) (fun _ => none) rfl rfl).1

/-- The slot collection of the C7 round-trip fixture. -/
def slotsC7 : List Slot := [{ id := "slot_0001", startTime := 0, endTime := 30, isAvailable := true }]

/-- A stored record whose start instant fails to parse. -/
def rawsC7 : List RawStoredSlot := [{ id := "bad", startTime := none, endTime := some 5, isAvailable := false }]

/-- A parse function returning the serialized fixture for blob `"g"` and
the invalid-record fixture for any other blob. -/
def parseC7 (b : String) : Option (List RawStoredSlot) :=
  if b = "g" then some ((slotsC7.map serializeSlot).map storedToRaw) else some rawsC7

/-- Claim C7: saving a slot collection with valid date boundaries and
loading it back yields the identical collection (in particular identical on
id, start instant and end instant), and a stored record that fails to
parse into two valid instants is dropped by the load instead of failing
it. -/
theorem C7_save_load_roundtrip (slots : List Slot) (raws : List RawStoredSlot)
    (blob blob2 : String) (parse : String → Option (List RawStoredSlot))
    (hids : ∀ s, s ∈ slots → s.id.isEmpty = false)
    (hparse : parse blob = some ((slots.map serializeSlot).map storedToRaw))
    (hparse2 : parse blob2 = some raws) :
    saveGeneratedSlots slots = .ok (slots.map serializeSlot) ∧
    loadGeneratedSlots (.ok (some blob)) parse = .ok slots ∧
    loadGeneratedSlots (.ok (some blob2)) parse = .ok (raws.filterMap reconstructSlot) ∧
    (∀ r, r ∈ raws → (r.startTime = none ∨ r.endTime = none) → reconstructSlot r = none) := by
  refine ⟨?_, ?_, ?_, ?_⟩
  · have hany : (slots.any fun slot => slot.id.isEmpty) = false := by
      simp only [List.any_eq_false]
      intro x hx
      simp [hids x hx]
    unfold saveGeneratedSlots
    simp [hany]
  · unfold loadGeneratedSlots StorageManager.getItem
    simp only [hparse]
    congr 1
    rw [List.map_map, List.filterMap_map]
    have key : ∀ l : List Slot, (∀ s, s ∈ l → s.id.isEmpty = false) →
        l.filterMap (fun s => reconstructSlot (storedToRaw (serializeSlot s))) = l := by
      intro l hl
      induction l with
      | nil => rfl
      | cons a t ih =>
          have ha : a.id.isEmpty = false := hl a (List.mem_cons_self a t)
          have hrec : reconstructSlot (storedToRaw (serializeSlot a)) = some a := by
            cases a
            unfold reconstructSlot storedToRaw serializeSlot
            simp_all
          rw [List.filterMap_cons, hrec, ih (fun s hs => hl s (List.mem_cons_of_mem a hs))]
    exact key slots hids
  · unfold loadGeneratedSlots StorageManager.getItem
    simp [hparse2]
  · intro r _ hbad
    unfold reconstructSlot
    rcases hbad with hb | hb <;> rw [hb] <;>
      first
        | rfl
        | (cases r.startTime <;> rfl)

/-- Claim C7, witness: the round trip at the fixture collection, and the
invalid stored record is dropped. -/
theorem C7_save_load_roundtrip_witness :
    loadGeneratedSlots (.ok (some "g")) parseC7 = .ok slotsC7 ∧
    loadGeneratedSlots (.ok (some "h")) parseC7 = .ok (rawsC7.filterMap reconstructSlot) :=
  ⟨(C7_save_load_roundtrip slotsC7 rawsC7 "g" "h" parseC7
      (by decide) rfl rfl).2.1,
   (C7_save_load_roundtrip slotsC7 rawsC7 "g" "h" parseC7
      (by decide) rfl rfl).2.2.1⟩
